import Mathlib

/-!
Verification of the herm-consumer-auth-service token-lifecycle core.

The Python services are shallowly embedded as pure Lean functions over an
explicit database state.  Timestamps (`datetime.utcnow()`) are modeled as
integers (seconds); `datetime` comparison is integer comparison.  SQLAlchemy
`scalar_one_or_none()` on a unique indexed column is modeled as `List.find?`;
mutating the found row and committing is modeled as mapping the update over
the table (on a unique column both coincide).  The random token generator
(`secrets.token_urlsafe`) is modeled by passing the generated string as an
explicit argument.
-/

namespace HermAuth

/- Wall-clock instants (`datetime.utcnow()` values) are plain `Int` seconds. -/

/-- Model of `app.models.user.User` (the columns the core logic reads). -/
structure User where
  id : Nat
  email : String
  hashed_password : String
  is_active : Bool
  is_verified : Bool
  role : String
deriving DecidableEq

/-- Model of `app.models.refresh_token.RefreshToken`. -/
structure RefreshToken where
  token : String
  user_id : Nat
  expires_at : Int
  is_revoked : Bool
  device_info : Option String
  ip_address : Option String
deriving DecidableEq

/-- Model of `app.models.password_reset_token.PasswordResetToken`. -/
structure PasswordResetToken where
  token : String
  user_id : Nat
  expires_at : Int
  is_used : Bool
  used_at : Option Int
  ip_address : Option String
deriving DecidableEq

/-- Model of `app.models.email_verification_token.EmailVerificationToken`. -/
structure EmailVerificationToken where
  token : String
  user_id : Nat
  expires_at : Int
  is_used : Bool
  used_at : Option Int
  ip_address : Option String
deriving DecidableEq

/-- `RefreshToken.is_expired`: `datetime.utcnow() > self.expires_at`
(both tzinfo branches compare the same way once normalized). -/
def RefreshToken.is_expired (t : RefreshToken) (now : Int) : Bool :=
  t.expires_at < now

/-- `RefreshToken.is_valid`: `not self.is_revoked and not self.is_expired()`. -/
def RefreshToken.is_valid (t : RefreshToken) (now : Int) : Bool :=
  !t.is_revoked && !t.is_expired now

/-- `PasswordResetToken.is_expired`: `datetime.utcnow() > self.expires_at`. -/
def PasswordResetToken.is_expired (t : PasswordResetToken) (now : Int) : Bool :=
  t.expires_at < now

/-- `PasswordResetToken.is_valid`: `not self.is_used and not self.is_expired()`. -/
def PasswordResetToken.is_valid (t : PasswordResetToken) (now : Int) : Bool :=
  !t.is_used && !t.is_expired now

/-- `EmailVerificationToken.is_expired`: `datetime.utcnow() > self.expires_at`. -/
def EmailVerificationToken.is_expired (t : EmailVerificationToken) (now : Int) : Bool :=
  t.expires_at < now

/-- `EmailVerificationToken.is_valid`: `not self.is_used and not self.is_expired()`. -/
def EmailVerificationToken.is_valid (t : EmailVerificationToken) (now : Int) : Bool :=
  !t.is_used && !t.is_expired now

/-- The four persisted tables (accounts, sessions, reset tokens, verification tokens). -/
structure DB where
  users : List User
  refresh_tokens : List RefreshToken
  password_reset_tokens : List PasswordResetToken
  email_verification_tokens : List EmailVerificationToken
deriving DecidableEq

/-- `select(User).where(User.email == email)` + `scalar_one_or_none()`. -/
def findUserByEmail (db : DB) (email : String) : Option User :=
  db.users.find? (fun u => u.email == email)

/-- `select(User).where(User.id == uid)` + `scalar_one_or_none()`. -/
def findUserById (db : DB) (uid : Nat) : Option User :=
  db.users.find? (fun u => u.id == uid)

/-- `select(RefreshToken).where(RefreshToken.token == s)` + `scalar_one_or_none()`. -/
def findRefreshToken (db : DB) (s : String) : Option RefreshToken :=
  db.refresh_tokens.find? (fun t => t.token == s)

/-- `select(PasswordResetToken).where(PasswordResetToken.token == s)` + `scalar_one_or_none()`. -/
def findResetToken (db : DB) (s : String) : Option PasswordResetToken :=
  db.password_reset_tokens.find? (fun t => t.token == s)

/-- `select(EmailVerificationToken).where(EmailVerificationToken.token == s)` + `scalar_one_or_none()`. -/
def findVerificationToken (db : DB) (s : String) : Option EmailVerificationToken :=
  db.email_verification_tokens.find? (fun t => t.token == s)

/-- `settings.REFRESH_TOKEN_EXPIRE_DAYS` (default 30). -/
def REFRESH_TOKEN_EXPIRE_DAYS : Int := 30

/-- `settings.REFRESH_TOKEN_ROTATION_ENABLED` (default True). -/
def REFRESH_TOKEN_ROTATION_ENABLED : Bool := true

/-- Typed failures raised by the services (HTTPException status codes). -/
inductive ApiError where
  /-- 400/401 "Invalid or expired ... token". -/
  | tokenInvalid
  /-- 404 "User not found". -/
  | userNotFound
  /-- 403 "User account is inactive". -/
  | accountInactive
  /-- An unhandled Python `TypeError` (surfaces as HTTP 500). -/
  | typeError
deriving DecidableEq

/-- Whether an `Except` result is a success. -/
def exceptOk {ε α : Type} : Except ε α → Bool
  | .ok _ => true
  | .error _ => false

/-- `TokenService.create_refresh_token`: persist a fresh session token expiring in
`REFRESH_TOKEN_EXPIRE_DAYS` days.  `newTok` stands for `RefreshToken.generate_token()`. -/
def TokenService.create_refresh_token (db : DB) (user_id : Nat) (newTok : String)
    (now : Int) (device_info ip_address : Option String) : DB × RefreshToken :=
  let rt : RefreshToken :=
    { token := newTok, user_id := user_id,
      expires_at := now + REFRESH_TOKEN_EXPIRE_DAYS * 86400,
      is_revoked := false, device_info := device_info, ip_address := ip_address }
  ({ db with refresh_tokens := db.refresh_tokens ++ [rt] }, rt)

/-- `TokenService.verify_refresh_token`: `None` if absent or `not is_valid()`. -/
def TokenService.verify_refresh_token (db : DB) (s : String) (now : Int) :
    Option RefreshToken :=
  match findRefreshToken db s with
  | none => none
  | some t => if t.is_valid now then some t else none

/-- `TokenService.revoke_refresh_token`: mark the row with this string revoked if present. -/
def TokenService.revoke_refresh_token (db : DB) (s : String) : DB × Bool :=
  match findRefreshToken db s with
  | some _ =>
      let revoked := db.refresh_tokens.map
        (fun t => if t.token == s then { t with is_revoked := true } else t)
      ({ db with refresh_tokens := revoked }, true)
  | none => (db, false)

/-- `TokenService.revoke_all_user_tokens`: mark every non-revoked session of the user revoked. -/
def TokenService.revoke_all_user_tokens (db : DB) (uid : Nat) : DB :=
  let revoked := db.refresh_tokens.map
    (fun t => if t.user_id == uid && !t.is_revoked then { t with is_revoked := true } else t)
  { db with refresh_tokens := revoked }

/-- `ForgotPasswordService.create_reset_token`: mark every unused reset token of the
user used, then persist a new token expiring in `expiry_hours` hours.
`newTok` stands for `PasswordResetToken.generate_token()`. -/
def ForgotPasswordService.create_reset_token (db : DB) (user_id : Nat)
    (ip_address : Option String) (now : Int) (expiry_hours : Int) (newTok : String) :
    DB × PasswordResetToken :=
  let marked := db.password_reset_tokens.map
    (fun t => if t.user_id == user_id && !t.is_used then { t with is_used := true } else t)
  let tok : PasswordResetToken :=
    { token := newTok, user_id := user_id,
      expires_at := now + expiry_hours * 3600,
      is_used := false, used_at := none, ip_address := ip_address }
  ({ db with password_reset_tokens := marked ++ [tok] }, tok)

/-- `EmailVerificationService.create_verification_token`: mark every unused verification
token of the user used, then persist a new token expiring in `expiry_hours` hours. -/
def EmailVerificationService.create_verification_token (db : DB) (user_id : Nat)
    (ip_address : Option String) (now : Int) (expiry_hours : Int) (newTok : String) :
    DB × EmailVerificationToken :=
  let marked := db.email_verification_tokens.map
    (fun t => if t.user_id == user_id && !t.is_used then { t with is_used := true } else t)
  let tok : EmailVerificationToken :=
    { token := newTok, user_id := user_id,
      expires_at := now + expiry_hours * 3600,
      is_used := false, used_at := none, ip_address := ip_address }
  ({ db with email_verification_tokens := marked ++ [tok] }, tok)

/-- `ResetPasswordService.verify_reset_token`: `None` if absent or `not is_valid()`. -/
def ResetPasswordService.verify_reset_token (db : DB) (s : String) (now : Int) :
    Option PasswordResetToken :=
  match findResetToken db s with
  | none => none
  | some t => if t.is_valid now then some t else none

/-- `ResetPasswordService.reset_password`: verify the token, load the user, reject
inactive accounts, store the new hash, mark the token used (`used_at` set), and
revoke all of the user's refresh tokens.  `hashFn` stands for
`security_service.get_password_hash`. -/
def ResetPasswordService.reset_password (db : DB) (s : String) (new_password : String)
    (now : Int) (hashFn : String → String) : Except ApiError DB :=
  match ResetPasswordService.verify_reset_token db s now with
  | none => .error .tokenInvalid
  | some reset_token =>
    match findUserById db reset_token.user_id with
    | none => .error .userNotFound
    | some user =>
      if !user.is_active then .error .accountInactive
      else
        let users1 := db.users.map
          (fun u => if u.id == user.id then { u with hashed_password := hashFn new_password } else u)
        let db1 := { db with users := users1 }
        let prt2 := db1.password_reset_tokens.map
          (fun t => if t.token == s then { t with is_used := true, used_at := some now } else t)
        let db2 := { db1 with password_reset_tokens := prt2 }
        .ok (TokenService.revoke_all_user_tokens db2 user.id)

/-- `EmailVerificationService.verify_token`: `None` if absent or expired; an
already-used token is returned (the idempotency check happens in `verify_email`). -/
def EmailVerificationService.verify_token (db : DB) (s : String) (now : Int) :
    Option EmailVerificationToken :=
  match findVerificationToken db s with
  | none => none
  | some t => if t.is_expired now then none else some t

/-- `EmailVerificationService.verify_email`: idempotent success when the account is
already verified (marking the token used if it was not); reject a used token on an
unverified account; otherwise flip the account to verified and consume the token. -/
def EmailVerificationService.verify_email (db : DB) (s : String) (now : Int) :
    Except ApiError (DB × User) :=
  match EmailVerificationService.verify_token db s now with
  | none => .error .tokenInvalid
  | some vt =>
    match findUserById db vt.user_id with
    | none => .error .userNotFound
    | some user =>
      if user.is_verified then
        if !vt.is_used then
          let evt1 := db.email_verification_tokens.map
            (fun t => if t.token == s then { t with is_used := true, used_at := some now } else t)
          .ok ({ db with email_verification_tokens := evt1 }, user)
        else .ok (db, user)
      else if vt.is_used then .error .tokenInvalid
      else
        let user1 := { user with is_verified := true }
        let users1 := db.users.map (fun u => if u.id == user.id then user1 else u)
        let db1 := { db with users := users1 }
        let evt2 := db1.email_verification_tokens.map
          (fun t => if t.token == s then { t with is_used := true, used_at := some now } else t)
        .ok ({ db1 with email_verification_tokens := evt2 }, user1)

/-- `refresh_access_token` (`POST /auth/refresh`): verify the presented refresh token;
with rotation enabled revoke it and create a fresh session token whose string is
returned, otherwise return the same string with no state change.  The access-token
payload is not modeled (the claim is about the refresh-token string and state). -/
def refresh_access_token (db : DB) (token : String) (now : Int) (rotation : Bool)
    (newTok : String) (device_info ip_address : Option String) :
    Except ApiError (DB × String) :=
  match TokenService.verify_refresh_token db token now with
  | none => .error .tokenInvalid
  | some rt =>
    if rotation then
      let db1 := (TokenService.revoke_refresh_token db token).1
      let res := TokenService.create_refresh_token db1 rt.user_id newTok now device_info ip_address
      .ok (res.1, res.2.token)
    else
      .ok (db, token)

/-- `ForgotPasswordService.process_forgot_password`: look the user up by email; if
absent return `False` (swallowed); otherwise resolve language (always "en") and
template (always the mock, never `None`), create a reset token and queue the email.
Returns the new state and the boolean the Python method returns. -/
def ForgotPasswordService.process_forgot_password (db : DB) (email : String)
    (ip_address : Option String) (now : Int) (expiry_hours : Int) (newTok : String) :
    DB × Bool :=
  match findUserByEmail db email with
  | none => (db, false)
  | some user =>
      ((ForgotPasswordService.create_reset_token db user.id ip_address now expiry_hours newTok).1,
       true)

/-- Python keyword-argument binding: a call is well formed only when every keyword
used at the call site is a declared parameter of the callee. -/
def pyCallBindsOk (params kwargs : List String) : Bool :=
  kwargs.all (fun k => params.contains k)

/-- The keyword parameters `ForgotPasswordService.process_forgot_password` declares
(besides `self`): `email`, `ip_address`, `expiry_hours`. -/
def process_forgot_password_params : List String :=
  ["email", "ip_address", "expiry_hours"]

/-- The keywords the `/auth/forgot-password` endpoint passes to
`process_forgot_password` in `app/api/v1/auth.py`: `email`, `language`,
`ip_address`, `expiry_hours`. -/
def forgot_password_call_kwargs : List String :=
  ["email", "language", "ip_address", "expiry_hours"]

/-- The `/auth/forgot-password` endpoint: calls `process_forgot_password` with the
keywords written in the source (raising `TypeError` when one of them is not a
parameter of the callee, as Python does), ignores the boolean result, and returns
the generic 200 confirmation. -/
def forgot_password_endpoint (db : DB) (email language : String)
    (ip_address : Option String) (now : Int) (newTok : String) :
    Except ApiError (DB × Nat) :=
  if pyCallBindsOk process_forgot_password_params forgot_password_call_kwargs then
    let res := ForgotPasswordService.process_forgot_password db email ip_address now 24 newTok
    .ok (res.1, 200)
  else
    .error .typeError

/-- One `(request_count, window_start_time)` entry of `RateLimiter._storage`. -/
structure RLEntry where
  count : Nat
  window_start : Int
deriving DecidableEq

/-- `RateLimiter.check_rate_limit` for one client: a missing entry defaults to
`(0, now)` (the `defaultdict` default); inside the current window a count at the
limit is rejected with `retry_after = window_start + window_seconds - now`,
otherwise the count is incremented; outside the window the counter resets to `1`
and a new window starts at `now`.  `.error r` carries the computed retry-after. -/
def RateLimiter.check_rate_limit (entry : Option RLEntry) (now : Int)
    (max_requests : Nat) (window_seconds : Int) : Except Int RLEntry :=
  let e := match entry with
    | none => ({ count := 0, window_start := now } : RLEntry)
    | some e => e
  if now - e.window_start < window_seconds then
    if e.count ≥ max_requests then
      .error (e.window_start + window_seconds - now)
    else
      .ok { count := e.count + 1, window_start := e.window_start }
  else
    .ok { count := 1, window_start := now }

/-- `SecurityService._truncate_password`: a Python password is modeled by its UTF-8
byte encoding (a `List Nat`); encodings longer than 72 bytes are cut to the first
72 bytes. -/
def truncate_password (password_bytes : List Nat) : List Nat :=
  if password_bytes.length > 72 then password_bytes.take 72 else password_bytes

/-- `SecurityService.get_password_hash`: hash the truncated-and-decoded password.
`dec` stands for `bytes.decode('utf-8', errors='ignore')` and `bhash` for
`pwd_context.hash`, both applied exactly as in the source. -/
def get_password_hash (dec : List Nat → String) (bhash : String → String)
    (p : List Nat) : String :=
  bhash (dec (truncate_password p))

/-- `SecurityService.verify_password`: verify the truncated-and-decoded password
against the stored hash.  `bverify` stands for `pwd_context.verify`. -/
def verify_password (dec : List Nat → String) (bverify : String → String → Bool)
    (p : List Nat) (h : String) : Bool :=
  bverify (dec (truncate_password p)) h

/-! Concrete example states used by witnesses and counterexamples. -/

/-- A session token that expires at instant 100 and is not revoked. -/
def exRT1 : RefreshToken :=
  { token := "rt1", user_id := 1, expires_at := 100, is_revoked := false,
    device_info := none, ip_address := none }

/-- A state holding only `exRT1`. -/
def exRTdb : DB :=
  { users := [], refresh_tokens := [exRT1], password_reset_tokens := [],
    email_verification_tokens := [] }

/-- An unverified active account with id 1. -/
def exUserU : User :=
  { id := 1, email := "u@x.com", hashed_password := "h1", is_active := true,
    is_verified := false, role := "user" }

/-- A verified active account with id 2. -/
def exUserV : User :=
  { id := 2, email := "v@x.com", hashed_password := "h2", is_active := true,
    is_verified := true, role := "user" }

/-- An unused reset token of account 1, expiring at instant 1000. -/
def exPrt1 : PasswordResetToken :=
  { token := "pr1", user_id := 1, expires_at := 1000, is_used := false,
    used_at := none, ip_address := none }

/-- An unused reset token of account 2, expiring at instant 1000. -/
def exPrt2 : PasswordResetToken :=
  { token := "pr2", user_id := 2, expires_at := 1000, is_used := false,
    used_at := none, ip_address := none }

/-- An unused verification token of account 1, expiring at instant 1000. -/
def exEvt1 : EmailVerificationToken :=
  { token := "ev1", user_id := 1, expires_at := 1000, is_used := false,
    used_at := none, ip_address := none }

/-- An unused verification token of account 2, expiring at instant 1000. -/
def exEvt2 : EmailVerificationToken :=
  { token := "ev2", user_id := 2, expires_at := 1000, is_used := false,
    used_at := none, ip_address := none }

/-- A live session token of account 1, expiring at instant 1000. -/
def exRtU : RefreshToken :=
  { token := "rtU", user_id := 1, expires_at := 1000, is_revoked := false,
    device_info := none, ip_address := none }

/-- A state with two accounts, one session, and action tokens for both accounts. -/
def exDB : DB :=
  { users := [exUserU, exUserV], refresh_tokens := [exRtU],
    password_reset_tokens := [exPrt1, exPrt2],
    email_verification_tokens := [exEvt1, exEvt2] }

/-- The state after issuing a fresh verification token "evB" for the
already-verified account 2 of `exDB` at instant 0 (which marks the older
unused token "ev2" used). -/
def exC1db1 : DB :=
  (EmailVerificationService.create_verification_token exDB 2 none 0 24 "evB").1

/-- Byte encoding of a 73-byte password (all zero bytes). -/
def exBytes1 : List Nat := List.replicate 73 0

/-- Byte encoding of a second 73-byte password agreeing with `exBytes1` on the
first 72 bytes and differing in the last. -/
def exBytes2 : List Nat := List.replicate 72 0 ++ [1]

end HermAuth

namespace HermAuth

/-! Helper lemmas (shared). -/

/-- Two pointwise-equal predicates find the same element. -/
theorem find?_congr_pred {α : Type} (p q : α → Bool) (l : List α)
    (h : ∀ a, p a = q a) : l.find? p = l.find? q := by
  have : p = q := funext h
  rw [this]

/-- Searching a mapped list by a key the map preserves is searching the original
list and mapping the result. -/
theorem find?_map_of_key_pres {α κ : Type} [BEq κ] (key : α → κ) (s : κ)
    (f : α → α) (l : List α) (hf : ∀ a, key (f a) = key a) :
    (l.map f).find? (fun a => key a == s) = Option.map f (l.find? (fun a => key a == s)) := by
  rw [List.find?_map]
  have h : ((fun a => key a == s) ∘ f) = (fun a => key a == s) := by
    funext a
    simp [Function.comp, hf]
  rw [h]

/-- The element `find?` returns satisfies the predicate searched for. -/
theorem find?_pred {α : Type} {p : α → Bool} {l : List α} {a : α}
    (h : l.find? p = some a) : p a = true :=
  List.find?_some h

/-- On a list whose keys are pairwise distinct, searching for the key of a member
finds exactly that member. -/
theorem find?_eq_some_of_mem_of_nodup {α κ : Type} [BEq κ] [LawfulBEq κ]
    (key : α → κ) {l : List α} {t : α}
    (hnd : (l.map key).Nodup) (hmem : t ∈ l) :
    l.find? (fun a => key a == key t) = some t := by
  induction l with
  | nil => cases hmem
  | cons a l ih =>
    rw [List.map_cons, List.nodup_cons] at hnd
    rcases List.mem_cons.mp hmem with h | hm
    · subst h
      rw [List.find?_cons_of_pos _ (by simp)]
    · have hkt : key t ∈ l.map key := List.mem_map_of_mem key hm
      have hne : ¬(key a == key t) = true := by
        simp only [beq_iff_eq]
        intro hEq
        exact hnd.1 (hEq ▸ hkt)
      have step : (a :: l).find? (fun x => key x == key t) = l.find? (fun x => key x == key t) :=
        List.find?_cons_of_neg l hne
      rw [step]
      exact ih hnd.2 hm

/-- A refresh-token lookup that lands on a revoked row verifies to `none`. -/
theorem verify_none_of_revoked {db : DB} {s : String} {now : Int} {y : RefreshToken}
    (hfind : db.refresh_tokens.find? (fun x => x.token == s) = some y)
    (hrev : y.is_revoked = true) :
    TokenService.verify_refresh_token db s now = none := by
  unfold TokenService.verify_refresh_token findRefreshToken
  rw [hfind]
  simp [RefreshToken.is_valid, hrev]

/-- C7: truncation is applied identically on the hash and verify paths.  For any
decode (`errors='ignore'`) and any hash primitive whose verify accepts its own
hashes, `verify_password p (get_password_hash p)` succeeds for every password,
and two passwords whose UTF-8 encodings both exceed 72 bytes and agree on the
first 72 bytes verify against each other's hashes. -/
theorem C7_truncation_consistent (dec : List Nat → String) (bhash : String → String)
    (bverify : String → String → Bool)
    (hround : ∀ x, bverify x (bhash x) = true) :
    (∀ p, verify_password dec bverify p (get_password_hash dec bhash p) = true) ∧
    (∀ p1 p2, 72 < p1.length → 72 < p2.length → p1.take 72 = p2.take 72 →
      verify_password dec bverify p2 (get_password_hash dec bhash p1) = true ∧
      verify_password dec bverify p1 (get_password_hash dec bhash p2) = true) := by
  constructor
  · intro p
    unfold verify_password get_password_hash
    exact hround _
  · intro p1 p2 h1 h2 hpre
    have htr : truncate_password p1 = truncate_password p2 := by
      unfold truncate_password
      rw [if_pos h1, if_pos h2]
      exact hpre
    constructor
    · unfold verify_password get_password_hash
      rw [← htr]
      exact hround _
    · unfold verify_password get_password_hash
      rw [htr]
      exact hround _

/-- Witness for C7 at two concrete 73-byte passwords sharing their first 72 bytes. -/
theorem C7_witness :
    verify_password (fun _ => "d") (fun a b => a == b) exBytes2
      (get_password_hash (fun _ => "d") id exBytes1) = true ∧
    verify_password (fun _ => "d") (fun a b => a == b) exBytes1
      (get_password_hash (fun _ => "d") id exBytes1) = true := by
  have h := C7_truncation_consistent (fun _ => "d") id (fun a b => a == b)
    (by intro x; simp)
  refine ⟨?_, h.1 exBytes1⟩
  exact (h.2 exBytes1 exBytes2 (by decide) (by decide) (by decide)).1

/-- C8: with a 3-requests-per-900-seconds policy, three checks inside one window
succeed with counts 1, 2, 3 and the window anchored at the first check; the 4th
check inside the window is rejected with retry-after equal to the remaining
window time (hence at most 900 seconds); and a check at or after the window's
end succeeds, resets the counter to 1, and starts the new window at that
moment. -/
theorem C8_rate_limit_window (t0 t1 t2 t3 t4 : Int)
    (h1 : t1 - t0 < 900) (h2 : t2 - t0 < 900) (h3 : t3 - t0 < 900) (h0 : t0 ≤ t3) :
    RateLimiter.check_rate_limit none t0 3 900 = .ok ⟨1, t0⟩ ∧
    RateLimiter.check_rate_limit (some ⟨1, t0⟩) t1 3 900 = .ok ⟨2, t0⟩ ∧
    RateLimiter.check_rate_limit (some ⟨2, t0⟩) t2 3 900 = .ok ⟨3, t0⟩ ∧
    RateLimiter.check_rate_limit (some ⟨3, t0⟩) t3 3 900 = .error (t0 + 900 - t3) ∧
    t0 + 900 - t3 ≤ 900 ∧
    (∀ (c : Nat) (w : Int), 900 ≤ t4 - w →
      RateLimiter.check_rate_limit (some ⟨c, w⟩) t4 3 900 = .ok ⟨1, t4⟩) := by
  refine ⟨?_, ?_, ?_, ?_, ?_, ?_⟩
  · dsimp only [RateLimiter.check_rate_limit]
    split_ifs <;> first | rfl | omega
  · dsimp only [RateLimiter.check_rate_limit]
    split_ifs <;> first | rfl | omega
  · dsimp only [RateLimiter.check_rate_limit]
    split_ifs <;> first | rfl | omega
  · dsimp only [RateLimiter.check_rate_limit]
    split_ifs <;> first | rfl | omega
  · omega
  · intro c w hw
    dsimp only [RateLimiter.check_rate_limit]
    split_ifs <;> first | rfl | omega

/-- Witness for C8 at concrete times 0, 10, 20, 30 and a reset check at 1000. -/
theorem C8_witness :
    RateLimiter.check_rate_limit (some ⟨3, 0⟩) 30 3 900 = .error 870 ∧
    RateLimiter.check_rate_limit (some ⟨3, 0⟩) 1000 3 900 = .ok ⟨1, 1000⟩ := by
  have h := C8_rate_limit_window 0 10 20 30 1000 (by norm_num) (by norm_num)
    (by norm_num) (by norm_num)
  refine ⟨?_, h.2.2.2.2.2 3 0 (by norm_num)⟩
  have h4 := h.2.2.2.1
  norm_num at h4
  exact h4

/-- C5 counterexample: the claim requires strictly `now < expires_at` for
validity, but at `now = expires_at` (token "rt1" expires at instant 100,
checked at instant 100) `verify_refresh_token` still returns the session:
the code's expiry test is `utcnow() > expires_at`, not `≥`. -/
theorem C5_counterexample :
    TokenService.verify_refresh_token exRTdb "rt1" 100 = some exRT1 ∧
    exRT1.expires_at = 100 := by
  constructor <;> rfl

/-- C5 (amended): `verify_refresh_token` returns the session if and only if a
row with that exact string exists, is not revoked, and `now ≤ expires_at`
(the code accepts `now = expires_at`; the claim's strict `now < expires_at`
is corrected to `≤`).  Token strings are assumed pairwise distinct, as the
table's unique index guarantees. -/
theorem C5_amended_verify_refresh_token (db : DB) (s : String) (now : Int)
    (hnd : (db.refresh_tokens.map (fun t => t.token)).Nodup) :
    (∀ t, TokenService.verify_refresh_token db s now = some t →
       t ∈ db.refresh_tokens ∧ t.token = s ∧ t.is_revoked = false ∧ now ≤ t.expires_at) ∧
    ((∃ t ∈ db.refresh_tokens, t.token = s ∧ t.is_revoked = false ∧ now ≤ t.expires_at) →
       (TokenService.verify_refresh_token db s now).isSome = true) := by
  constructor
  · intro t ht
    unfold TokenService.verify_refresh_token findRefreshToken at ht
    split at ht
    next => exact absurd ht (by simp)
    next t0 hfind =>
      split at ht
      next hv =>
        have hEq : t0 = t := Option.some.inj ht
        subst hEq
        have hmem : t0 ∈ db.refresh_tokens := List.mem_of_find?_eq_some hfind
        have htok : t0.token = s := by simpa using find?_pred hfind
        simp only [RefreshToken.is_valid, RefreshToken.is_expired, Bool.and_eq_true,
          Bool.not_eq_true', decide_eq_false_iff_not] at hv
        refine ⟨hmem, htok, hv.1, ?_⟩
        omega
      next hv => exact absurd ht (by simp)
  · rintro ⟨t, hmem, htok, hrev, hle⟩
    have hfind : db.refresh_tokens.find? (fun x => x.token == t.token) = some t :=
      find?_eq_some_of_mem_of_nodup (fun x => x.token) hnd hmem
    rw [htok] at hfind
    have hv : t.is_valid now = true := by
      simp only [RefreshToken.is_valid, RefreshToken.is_expired, Bool.and_eq_true,
        Bool.not_eq_true', decide_eq_false_iff_not]
      exact ⟨hrev, by omega⟩
    unfold TokenService.verify_refresh_token findRefreshToken
    rw [hfind]
    simp [hv]

/-- Witness for C5 at the concrete state `exRTdb` checked at instant 50. -/
theorem C5_witness :
    (TokenService.verify_refresh_token exRTdb "rt1" 50).isSome = true := by
  have h := (C5_amended_verify_refresh_token exRTdb "rt1" 50 (by decide)).2
  exact h ⟨exRT1, by decide, by decide, by decide, by decide⟩

/-- C3: redeeming a reset token exactly once — on an unused, unexpired token of
an existing active account — succeeds and marks the token used with `used_at`
set; every subsequent redemption of the same token fails with `TokenInvalid`,
with no idempotency carve-out, regardless of the account table's contents. -/
theorem C3_reset_token_single_use (db : DB) (s new_password : String) (now : Int)
    (hashFn : String → String) (t : PasswordResetToken) (u : User)
    (hfind : db.password_reset_tokens.find? (fun x => x.token == s) = some t)
    (hunused : t.is_used = false)
    (hexp : ¬ t.expires_at < now)
    (huser : db.users.find? (fun x => x.id == t.user_id) = some u)
    (hactive : u.is_active = true) :
    ∃ db1, ResetPasswordService.reset_password db s new_password now hashFn = .ok db1 ∧
      db1.password_reset_tokens.find? (fun x => x.token == s) =
        some { t with is_used := true, used_at := some now } ∧
      (∀ (users2 : List User) (pw2 : String) (now2 : Int) (hashFn2 : String → String),
        ResetPasswordService.reset_password { db1 with users := users2 } s pw2 now2 hashFn2 =
          .error .tokenInvalid) := by
  have hval : t.is_valid now = true := by
    simp [PasswordResetToken.is_valid, PasswordResetToken.is_expired, hunused, hexp]
  have htok : (t.token == s) = true := by
    have h := find?_pred hfind
    simpa using h
  have hmark : ∀ (l : List PasswordResetToken),
      l.find? (fun x => x.token == s) = some t →
      (l.map (fun x => if x.token == s then { x with is_used := true, used_at := some now } else x)).find?
          (fun x => x.token == s) =
        some { t with is_used := true, used_at := some now } := by
    intro l hl
    rw [find?_map_of_key_pres (fun x => x.token) s _ l (by intro a; split <;> rfl)]
    rw [hl]
    have ht2 : t.token = s := by simpa using htok
    simp [ht2]
  have hv2 : ResetPasswordService.verify_reset_token db s now = some t := by
    unfold ResetPasswordService.verify_reset_token findResetToken
    rw [hfind]
    simp [hval]
  refine ⟨TokenService.revoke_all_user_tokens
      { db with
          users := db.users.map
            (fun x => if x.id == u.id then { x with hashed_password := hashFn new_password } else x),
          password_reset_tokens := db.password_reset_tokens.map
            (fun x => if x.token == s then { x with is_used := true, used_at := some now } else x) }
      u.id, ?_, ?_, ?_⟩
  · unfold ResetPasswordService.reset_password
    rw [hv2]
    simp only [findUserById, huser, hactive, Bool.not_true, Bool.false_eq_true, if_false]
  · simp only [TokenService.revoke_all_user_tokens]
    exact hmark _ hfind
  · intro users2 pw2 now2 hashFn2
    have hfind2 :
        (db.password_reset_tokens.map
          (fun x => if x.token == s then { x with is_used := true, used_at := some now } else x)).find?
            (fun x => x.token == s) =
          some { t with is_used := true, used_at := some now } := hmark _ hfind
    simp only [ResetPasswordService.reset_password, ResetPasswordService.verify_reset_token,
      findResetToken, TokenService.revoke_all_user_tokens, hfind2]
    simp [PasswordResetToken.is_valid]

/-- Witness for C3: redeeming token "pr1" of the active account 1 in `exDB`
succeeds, and redeeming it again afterwards fails with `TokenInvalid`. -/
theorem C3_witness :
    ∃ db1, ResetPasswordService.reset_password exDB "pr1" "npw" 5 (fun _ => "H") = .ok db1 ∧
      ResetPasswordService.reset_password db1 "pr1" "npw" 6 (fun _ => "H") =
        .error .tokenInvalid := by
  obtain ⟨db1, heq, -, hagain⟩ :=
    C3_reset_token_single_use exDB "pr1" "npw" 5 (fun _ => "H") exPrt1 exUserU
      (by decide) (by decide) (by decide) (by decide) (by decide)
  refine ⟨db1, heq, ?_⟩
  have h := hagain db1.users "npw" 6 (fun _ => "H")
  simpa using h

/-- C4: a successful password reset stores the new credential hash and revokes
every refresh token of the account: after `reset_password` returns, every
session row of that account is revoked, and any refresh token of the account
that existed before the reset fails `verify_refresh_token` at every instant. -/
theorem C4_reset_revokes_sessions (db : DB) (s new_password : String) (now : Int)
    (hashFn : String → String) (t : PasswordResetToken) (u : User)
    (hfind : db.password_reset_tokens.find? (fun x => x.token == s) = some t)
    (hunused : t.is_used = false)
    (hexp : ¬ t.expires_at < now)
    (huser : db.users.find? (fun x => x.id == t.user_id) = some u)
    (hactive : u.is_active = true)
    (hnd : (db.refresh_tokens.map (fun x => x.token)).Nodup) :
    ∃ db1, ResetPasswordService.reset_password db s new_password now hashFn = .ok db1 ∧
      db1.users.find? (fun x => x.id == t.user_id) =
        some { u with hashed_password := hashFn new_password } ∧
      (∀ rt ∈ db1.refresh_tokens, rt.user_id = u.id → rt.is_revoked = true) ∧
      (∀ rt ∈ db.refresh_tokens, rt.user_id = u.id →
        ∀ now2, TokenService.verify_refresh_token db1 rt.token now2 = none) := by
  have hval : t.is_valid now = true := by
    simp [PasswordResetToken.is_valid, PasswordResetToken.is_expired, hunused, hexp]
  have hv2 : ResetPasswordService.verify_reset_token db s now = some t := by
    unfold ResetPasswordService.verify_reset_token findResetToken
    rw [hfind]
    simp [hval]
  have hrevoked_of : ∀ rt : RefreshToken, rt.user_id = u.id →
      ¬(rt.user_id == u.id && !rt.is_revoked) = true → rt.is_revoked = true := by
    intro rt hrid hc
    simp only [Bool.and_eq_true, Bool.not_eq_true'] at hc
    rcases Bool.eq_false_or_eq_true rt.is_revoked with h | h
    · exact h
    · exact absurd ⟨by simp [hrid], h⟩ hc
  have hgrev : ∀ rt : RefreshToken, rt.user_id = u.id →
      (if rt.user_id == u.id && !rt.is_revoked then ({ rt with is_revoked := true } : RefreshToken)
       else rt).is_revoked = true := by
    intro rt hrid
    by_cases hc : (rt.user_id == u.id && !rt.is_revoked) = true
    · simp [hc]
    · simp [hc, hrevoked_of rt hrid hc]
  refine ⟨TokenService.revoke_all_user_tokens
      { db with
          users := db.users.map
            (fun x => if x.id == u.id then { x with hashed_password := hashFn new_password } else x),
          password_reset_tokens := db.password_reset_tokens.map
            (fun x => if x.token == s then { x with is_used := true, used_at := some now } else x) }
      u.id, ?_, ?_, ?_, ?_⟩
  · unfold ResetPasswordService.reset_password
    rw [hv2]
    simp only [findUserById, huser, hactive, Bool.not_true, Bool.false_eq_true, if_false]
  · simp only [TokenService.revoke_all_user_tokens]
    rw [find?_map_of_key_pres (fun x => x.id) t.user_id _ db.users (by intro a; split <;> rfl)]
    rw [huser]
    simp
  · intro rt hmem hrid
    simp only [TokenService.revoke_all_user_tokens] at hmem
    obtain ⟨x, hx, hgx⟩ := List.mem_map.mp hmem
    have hxid : x.user_id = u.id := by
      have : rt.user_id = x.user_id := by
        rw [← hgx]
        split <;> rfl
      rw [← this, hrid]
    rw [← hgx]
    exact hgrev x hxid
  · intro rt hmem hrid now2
    have hfindrt : db.refresh_tokens.find? (fun x => x.token == rt.token) = some rt :=
      find?_eq_some_of_mem_of_nodup (fun x => x.token) hnd hmem
    refine verify_none_of_revoked ?_ (hgrev rt hrid)
    simp only [TokenService.revoke_all_user_tokens]
    rw [find?_map_of_key_pres (fun x => x.token) rt.token _ db.refresh_tokens
      (by intro a; split <;> rfl)]
    rw [hfindrt]
    rfl

/-- Witness for C4: after resetting the password of account 1 in `exDB`, its
previously valid session token "rtU" fails verification. -/
theorem C4_witness :
    ∃ db1, ResetPasswordService.reset_password exDB "pr1" "npw" 5 (fun _ => "H") = .ok db1 ∧
      TokenService.verify_refresh_token db1 "rtU" 6 = none := by
  obtain ⟨db1, heq, -, -, hfail⟩ :=
    C4_reset_revokes_sessions exDB "pr1" "npw" 5 (fun _ => "H") exPrt1 exUserU
      (by decide) (by decide) (by decide) (by decide) (by decide) (by decide)
  exact ⟨db1, heq, hfail exRtU (by decide) (by decide) 6⟩

/-- C2: for an unexpired verification token present in storage whose owning
account exists: if the account is already verified, `verify_email` succeeds
regardless of whether the token was already used, and marks the token used
(with `used_at` set) if it was not; if the account is not verified and the
token is used, `verify_email` rejects with `TokenInvalid`; if the account is
not verified and the token is unused, `verify_email` sets the account's
verified flag and marks the token used. -/
theorem C2_verify_email_idempotency (db : DB) (s : String) (now : Int)
    (vt : EmailVerificationToken) (u : User)
    (hfind : db.email_verification_tokens.find? (fun x => x.token == s) = some vt)
    (hexp : ¬ vt.expires_at < now)
    (huser : db.users.find? (fun x => x.id == vt.user_id) = some u) :
    (u.is_verified = true → vt.is_used = true →
       EmailVerificationService.verify_email db s now = .ok (db, u)) ∧
    (u.is_verified = true → vt.is_used = false →
       ∃ db1, EmailVerificationService.verify_email db s now = .ok (db1, u) ∧
         db1.email_verification_tokens.find? (fun x => x.token == s) =
           some { vt with is_used := true, used_at := some now }) ∧
    (u.is_verified = false → vt.is_used = true →
       EmailVerificationService.verify_email db s now = .error .tokenInvalid) ∧
    (u.is_verified = false → vt.is_used = false →
       ∃ db1, EmailVerificationService.verify_email db s now =
           .ok (db1, { u with is_verified := true }) ∧
         db1.users.find? (fun x => x.id == vt.user_id) =
           some { u with is_verified := true } ∧
         db1.email_verification_tokens.find? (fun x => x.token == s) =
           some { vt with is_used := true, used_at := some now }) := by
  have hvt : EmailVerificationService.verify_token db s now = some vt := by
    unfold EmailVerificationService.verify_token findVerificationToken
    rw [hfind]
    simp [EmailVerificationToken.is_expired, hexp]
  have ht2 : vt.token = s := by simpa using find?_pred hfind
  have hmark : ∀ (l : List EmailVerificationToken),
      l.find? (fun x => x.token == s) = some vt →
      (l.map (fun x => if x.token == s then { x with is_used := true, used_at := some now } else x)).find?
          (fun x => x.token == s) =
        some { vt with is_used := true, used_at := some now } := by
    intro l hl
    rw [find?_map_of_key_pres (fun x => x.token) s _ l (by intro a; split <;> rfl)]
    rw [hl]
    simp [ht2]
  refine ⟨?_, ?_, ?_, ?_⟩
  · intro hv hu
    unfold EmailVerificationService.verify_email
    rw [hvt]
    simp [findUserById, huser, hv, hu]
  · intro hv hu
    refine ⟨{ db with email_verification_tokens := db.email_verification_tokens.map (fun x => if x.token == s then { x with is_used := true, used_at := some now } else x) }, ?_, hmark _ hfind⟩
    unfold EmailVerificationService.verify_email
    rw [hvt]
    simp [findUserById, huser, hv, hu]
  · intro hv hu
    unfold EmailVerificationService.verify_email
    rw [hvt]
    simp [findUserById, huser, hv, hu]
  · intro hv hu
    refine ⟨{ db with users := db.users.map (fun x => if x.id == u.id then { u with is_verified := true } else x), email_verification_tokens := db.email_verification_tokens.map (fun x => if x.token == s then { x with is_used := true, used_at := some now } else x) }, ?_, ?_, hmark _ hfind⟩
    · unfold EmailVerificationService.verify_email
      rw [hvt]
      simp [findUserById, huser, hv, hu]
    · have hpres : ∀ a : User,
          (fun x => x.id) (if a.id == u.id then { u with is_verified := true } else a) =
            (fun x => x.id) a := by
        intro a
        by_cases h : (a.id == u.id) = true
        · have ha : a.id = u.id := by simpa using h
          simp [h, ha]
        · simp [h]
      rw [find?_map_of_key_pres (fun x => x.id) vt.user_id _ db.users hpres]
      rw [huser]
      simp

/-- Witness for C2: redeeming the unused token "ev2" of the already-verified
account 2 in `exDB` succeeds. -/
theorem C2_witness :
    ∃ db1, EmailVerificationService.verify_email exDB "ev2" 5 = .ok (db1, exUserV) := by
  obtain ⟨-, hB, -, -⟩ :=
    C2_verify_email_idempotency exDB "ev2" 5 exEvt2 exUserV (by decide) (by decide) (by decide)
  obtain ⟨db1, heq, -⟩ := hB (by decide) (by decide)
  exact ⟨db1, heq⟩

/-- C1 counterexample: after issuing verification token "evB" for the verified
account 2, the earlier token "ev2" is marked used and is unexpired at instant 5,
yet redeeming it does NOT fail with `TokenInvalid`: `verify_email` succeeds
because the owning account is already verified (the C2 idempotency carve-out),
refuting the claim's "redeeming any earlier token of the same purpose fails"
for the email-verification purpose. -/
theorem C1_counterexample :
    (exC1db1.email_verification_tokens.find? (fun x => x.token == "ev2")).map
        (fun x => x.is_used) = some true ∧
    exEvt2.is_expired 5 = false ∧
    exceptOk (EmailVerificationService.verify_email exC1db1 "ev2" 5) = true := by
  refine ⟨?_, ?_, ?_⟩ <;> decide

/-- C1 (amended): issuing a new action token marks every previously unused token
of that purpose for that account as used, regardless of expiry, before the new
token is appended; consequently redeeming an earlier password-reset token always
fails with `TokenInvalid`, and redeeming an earlier email-verification token
fails with `TokenInvalid` whenever the owning account is not yet verified (for
an already-verified account the redemption instead succeeds idempotently). -/
theorem C1_amended_invalidation_on_reissue (db : DB) (uid : Nat) (ip : Option String)
    (now : Int) (hrs : Int) (newTok : String) :
    (∀ (i : Nat) (t : PasswordResetToken), db.password_reset_tokens[i]? = some t →
       t.user_id = uid →
       ((ForgotPasswordService.create_reset_token db uid ip now hrs newTok).1).password_reset_tokens[i]? =
         some { t with is_used := true }) ∧
    (∀ (i : Nat) (t : EmailVerificationToken), db.email_verification_tokens[i]? = some t →
       t.user_id = uid →
       ((EmailVerificationService.create_verification_token db uid ip now hrs newTok).1).email_verification_tokens[i]? =
         some { t with is_used := true }) ∧
    (∀ (db2 : DB) (s pw : String) (now2 : Int) (hashFn : String → String)
       (t : PasswordResetToken),
       db2.password_reset_tokens.find? (fun x => x.token == s) = some t → t.is_used = true →
       ResetPasswordService.reset_password db2 s pw now2 hashFn = .error .tokenInvalid) ∧
    (∀ (db2 : DB) (s : String) (now2 : Int) (t : EmailVerificationToken) (u : User),
       db2.email_verification_tokens.find? (fun x => x.token == s) = some t → t.is_used = true →
       db2.users.find? (fun x => x.id == t.user_id) = some u → u.is_verified = false →
       EmailVerificationService.verify_email db2 s now2 = .error .tokenInvalid) := by
  refine ⟨?_, ?_, ?_, ?_⟩
  · intro i t hget hid
    have hlen : i < db.password_reset_tokens.length := (List.getElem?_eq_some.mp hget).1
    unfold ForgotPasswordService.create_reset_token
    rw [List.getElem?_append]
    rw [if_pos (by simpa using hlen)]
    rw [List.getElem?_map, hget]
    by_cases hu : t.is_used = true
    · have : ({ t with is_used := true } : PasswordResetToken) = t := by
        cases t
        simp_all
      rw [this]
      simp [hid, hu]
    · have hu2 : t.is_used = false := by
        rcases Bool.eq_false_or_eq_true t.is_used with h | h
        · exact absurd h hu
        · exact h
      simp [hid, hu2]
  · intro i t hget hid
    have hlen : i < db.email_verification_tokens.length := (List.getElem?_eq_some.mp hget).1
    unfold EmailVerificationService.create_verification_token
    rw [List.getElem?_append]
    rw [if_pos (by simpa using hlen)]
    rw [List.getElem?_map, hget]
    by_cases hu : t.is_used = true
    · have : ({ t with is_used := true } : EmailVerificationToken) = t := by
        cases t
        simp_all
      rw [this]
      simp [hid, hu]
    · have hu2 : t.is_used = false := by
        rcases Bool.eq_false_or_eq_true t.is_used with h | h
        · exact absurd h hu
        · exact h
      simp [hid, hu2]
  · intro db2 s pw now2 hashFn t hfind hused
    unfold ResetPasswordService.reset_password ResetPasswordService.verify_reset_token
      findResetToken
    rw [hfind]
    simp [PasswordResetToken.is_valid, hused]
  · intro db2 s now2 t u hfind hused huser hunv
    unfold EmailVerificationService.verify_email EmailVerificationService.verify_token
      findVerificationToken
    rw [hfind]
    by_cases hexp2 : t.is_expired now2 = true
    · simp [hexp2]
    · simp [hexp2, findUserById, huser, hunv, hused]

/-- Witness for C1: issuing reset token "prB" for account 1 in `exDB` marks the
older token "pr1" used, and redeeming "pr1" afterwards fails with
`TokenInvalid`. -/
theorem C1_witness :
    ((ForgotPasswordService.create_reset_token exDB 1 none 0 24 "prB").1).password_reset_tokens[0]? =
      some { exPrt1 with is_used := true } ∧
    ResetPasswordService.reset_password
        (ForgotPasswordService.create_reset_token exDB 1 none 0 24 "prB").1
        "pr1" "npw" 5 (fun _ => "H") = .error .tokenInvalid := by
  have h := C1_amended_invalidation_on_reissue exDB 1 none 0 24 "prB"
  refine ⟨h.1 0 exPrt1 (by decide) (by decide), ?_⟩
  exact h.2.2.1 _ "pr1" "npw" 5 (fun _ => "H") { exPrt1 with is_used := true }
    (by decide) (by decide)

/-- C6: for a valid refresh token T, with rotation enabled the Refresh operation
revokes T and returns a freshly generated token T2 ≠ T, and any subsequent
Refresh presenting T fails with `TokenInvalid`; with rotation disabled the same
string T is returned with no state change, and repeated Refresh calls with T
keep succeeding at every instant up to T's absolute expiry.  The generated
string is assumed fresh (distinct from every stored token), as the generator's
entropy and the column's unique index guarantee. -/
theorem C6_refresh_rotation (db : DB) (T newTok : String) (now : Int)
    (device ip : Option String) (rt : RefreshToken)
    (hnd : (db.refresh_tokens.map (fun x => x.token)).Nodup)
    (hmem : rt ∈ db.refresh_tokens) (htok : rt.token = T)
    (hrev : rt.is_revoked = false) (hexp : ¬ rt.expires_at < now)
    (hfresh : ∀ x ∈ db.refresh_tokens, x.token ≠ newTok) :
    (∃ db2, refresh_access_token db T now true newTok device ip = .ok (db2, newTok) ∧
       newTok ≠ T ∧
       (∀ (now2 : Int) (rot2 : Bool) (nt2 : String) (d2 i2 : Option String),
         refresh_access_token db2 T now2 rot2 nt2 d2 i2 = .error .tokenInvalid)) ∧
    (refresh_access_token db T now false newTok device ip = .ok (db, T) ∧
     (∀ now2, ¬ rt.expires_at < now2 →
        refresh_access_token db T now2 false newTok device ip = .ok (db, T))) := by
  have hfind0 : db.refresh_tokens.find? (fun x => x.token == rt.token) = some rt :=
    find?_eq_some_of_mem_of_nodup (fun x => x.token) hnd hmem
  have hfind : db.refresh_tokens.find? (fun x => x.token == T) = some rt := by
    rwa [htok] at hfind0
  have hver : ∀ now2, ¬ rt.expires_at < now2 →
      TokenService.verify_refresh_token db T now2 = some rt := by
    intro now2 h
    unfold TokenService.verify_refresh_token findRefreshToken
    rw [hfind]
    simp [RefreshToken.is_valid, RefreshToken.is_expired, hrev, h]
  constructor
  · refine ⟨{ db with refresh_tokens := db.refresh_tokens.map (fun x => if x.token == T then { x with is_revoked := true } else x) ++ [{ token := newTok, user_id := rt.user_id, expires_at := now + REFRESH_TOKEN_EXPIRE_DAYS * 86400, is_revoked := false, device_info := device, ip_address := ip }] }, ?_, ?_, ?_⟩
    · unfold refresh_access_token
      rw [hver now hexp]
      simp [TokenService.revoke_refresh_token, findRefreshToken, hfind,
        TokenService.create_refresh_token]
    · intro h
      exact hfresh rt hmem (by rw [htok, h])
    · intro now2 rot2 nt2 d2 i2
      have hfind2 : (db.refresh_tokens.map (fun x => if x.token == T then { x with is_revoked := true } else x) ++ [({ token := newTok, user_id := rt.user_id, expires_at := now + REFRESH_TOKEN_EXPIRE_DAYS * 86400, is_revoked := false, device_info := device, ip_address := ip } : RefreshToken)]).find? (fun x => x.token == T) = some { rt with is_revoked := true } := by
        rw [List.find?_append]
        rw [find?_map_of_key_pres (fun x => x.token) T _ db.refresh_tokens
          (by intro a; split <;> rfl)]
        rw [hfind]
        have hbeq : (rt.token == T) = true := by simp [htok]
        simp [hbeq]
        exact fun hcon => absurd htok hcon
      unfold refresh_access_token
      rw [verify_none_of_revoked hfind2 rfl]
  · constructor
    · unfold refresh_access_token
      rw [hver now hexp]
      rfl
    · intro now2 h2
      unfold refresh_access_token
      rw [hver now2 h2]
      rfl

/-- Witness for C6: refreshing with the valid token "rtU" of `exDB` under
rotation yields the fresh token, re-presenting "rtU" afterwards fails, and
without rotation the same token string is returned with no state change. -/
theorem C6_witness :
    ∃ db2, refresh_access_token exDB "rtU" 5 true "fresh" none none = .ok (db2, "fresh") ∧
      refresh_access_token db2 "rtU" 6 true "f2" none none = .error .tokenInvalid ∧
      refresh_access_token exDB "rtU" 5 false "fresh" none none = .ok (exDB, "rtU") := by
  obtain ⟨⟨db2, heq, -, hfail⟩, hdis, -⟩ :=
    C6_refresh_rotation exDB "rtU" "fresh" 5 none none exRtU (by decide) (by decide)
      (by decide) (by decide) (by decide) (by decide)
  exact ⟨db2, heq, hfail 6 true "f2" none none, hdis⟩

/-- C10: issuing an action token is framed to one account and one purpose:
`create_reset_token db uid …` leaves the user, session, and verification tables
unchanged and leaves every reset-token row of any other account unchanged
(same position, same value); symmetrically, `create_verification_token db uid …`
changes only verification rows owned by `uid`. -/
theorem C10_issue_frame (db : DB) (uid : Nat) (ip : Option String) (now : Int)
    (hrs : Int) (newTok : String) :
    (((ForgotPasswordService.create_reset_token db uid ip now hrs newTok).1).users = db.users ∧
     ((ForgotPasswordService.create_reset_token db uid ip now hrs newTok).1).refresh_tokens = db.refresh_tokens ∧
     ((ForgotPasswordService.create_reset_token db uid ip now hrs newTok).1).email_verification_tokens = db.email_verification_tokens ∧
     (∀ (i : Nat) (t : PasswordResetToken), db.password_reset_tokens[i]? = some t →
        t.user_id ≠ uid →
        ((ForgotPasswordService.create_reset_token db uid ip now hrs newTok).1).password_reset_tokens[i]? = some t)) ∧
    (((EmailVerificationService.create_verification_token db uid ip now hrs newTok).1).users = db.users ∧
     ((EmailVerificationService.create_verification_token db uid ip now hrs newTok).1).refresh_tokens = db.refresh_tokens ∧
     ((EmailVerificationService.create_verification_token db uid ip now hrs newTok).1).password_reset_tokens = db.password_reset_tokens ∧
     (∀ (i : Nat) (t : EmailVerificationToken), db.email_verification_tokens[i]? = some t →
        t.user_id ≠ uid →
        ((EmailVerificationService.create_verification_token db uid ip now hrs newTok).1).email_verification_tokens[i]? = some t)) := by
  refine ⟨⟨rfl, rfl, rfl, ?_⟩, ⟨rfl, rfl, rfl, ?_⟩⟩
  · intro i t hget hid
    have hlen : i < db.password_reset_tokens.length := (List.getElem?_eq_some.mp hget).1
    unfold ForgotPasswordService.create_reset_token
    rw [List.getElem?_append]
    rw [if_pos (by simpa using hlen)]
    rw [List.getElem?_map, hget]
    have hbeq : (t.user_id == uid) = false := by simp [hid]
    simp [hbeq]
    exact fun hcon hcon2 => absurd hcon hid
  · intro i t hget hid
    have hlen : i < db.email_verification_tokens.length := (List.getElem?_eq_some.mp hget).1
    unfold EmailVerificationService.create_verification_token
    rw [List.getElem?_append]
    rw [if_pos (by simpa using hlen)]
    rw [List.getElem?_map, hget]
    have hbeq : (t.user_id == uid) = false := by simp [hid]
    simp [hbeq]
    exact fun hcon hcon2 => absurd hcon hid

/-- Witness for C10: issuing tokens for account 1 in `exDB` leaves account 2's
reset token "pr2" and verification token "ev2" unchanged in place. -/
theorem C10_witness :
    ((ForgotPasswordService.create_reset_token exDB 1 none 0 24 "prB").1).password_reset_tokens[1]? = some exPrt2 ∧
    ((EmailVerificationService.create_verification_token exDB 1 none 0 24 "evB").1).email_verification_tokens[1]? = some exEvt2 := by
  have h := C10_issue_frame exDB 1 none 0 24 "prB"
  have h2 := C10_issue_frame exDB 1 none 0 24 "evB"
  exact ⟨h.1.2.2.2 1 exPrt2 (by decide) (by decide),
    h2.2.2.2.2 1 exEvt2 (by decide) (by decide)⟩

/-- C9: the claim that the forgot-password operation always completes with the
generic success confirmation fails on the code: the endpoint passes the keyword
`language` to `process_forgot_password`, which does not declare it, so every
request raises `TypeError` (HTTP 500) instead of returning 200. -/
theorem C9_forgot_password_type_error (db : DB) (email language : String)
    (ip : Option String) (now : Int) (newTok : String) :
    forgot_password_endpoint db email language ip now newTok = .error .typeError := rfl

end HermAuth
